import Mathlib

/-!
Verification of the batch enrichment pipeline of the NZ 250m population-grid
analysis script (`scripts/analyze_population.py`).

The Python code is shallowly embedded: dataframes become lists, strings become
`List Char`, the in-process geocode cache becomes an explicit association
list threaded through a step function, and the network / LLM backends become
explicit oracle parameters describing the outcome the external service would
produce.  Side effects that matter to the claims (network calls, sleeps) are
reified as output data.
-/

namespace NZGrid

/-! ### Chunker: `split_dataframe` (analyze_population.py, lines 57-59)

Python:
```
def split_dataframe(df, chunk_size):
    num_chunks = math.ceil(len(df) / chunk_size)
    return [df.iloc[i*chunk_size:(i+1)*chunk_size].copy() for i in range(num_chunks)]
```
A dataframe is embedded as a `List α` of rows; `df.iloc[a:b]` is
`(df.drop a).take (b - a)`; `math.ceil (n / k)` on naturals is
`(n + k - 1) / k`.  `.copy()` has no counterpart: the embedding is pure. -/

def split_dataframe {α : Type} (df : List α) (chunk_size : Nat) : List (List α) :=
  let num_chunks := (df.length + chunk_size - 1) / chunk_size
  (List.range num_chunks).map (fun i => ((df.drop (i * chunk_size)).take chunk_size))

lemma join_chunks {α : Type} (k : Nat) :
    ∀ (n : Nat) (df : List α), df.length ≤ n * k →
      ((List.range n).map (fun i => ((df.drop (i * k)).take k))).flatten = df := by
  intro n
  induction n with
  | zero =>
    intro df h
    simp only [Nat.zero_mul, Nat.le_zero] at h
    simp [List.eq_nil_of_length_eq_zero h]
  | succ n ih =>
    intro df h
    rw [Nat.succ_mul] at h
    rw [List.range_succ_eq_map]
    simp only [List.map_cons, List.map_map, List.flatten_cons, Nat.zero_mul, List.drop_zero]
    have hcomp :
        ((fun i => ((df.drop (i * k)).take k)) ∘ Nat.succ) =
          (fun i => (((df.drop k).drop (i * k)).take k)) := by
      funext i
      simp only [Function.comp_apply, List.drop_drop, Nat.succ_mul, Nat.add_comm]
    rw [hcomp, ih (df.drop k) (by simp only [List.length_drop]; omega)]
    exact List.take_append_drop k df

lemma ceil_mul_ge (len k : Nat) (hk : 0 < k) : len ≤ (len + k - 1) / k * k := by
  have hmod := Nat.div_add_mod (len + k - 1) k
  have hlt := Nat.mod_lt (len + k - 1) hk
  have hcomm : k * ((len + k - 1) / k) = (len + k - 1) / k * k := Nat.mul_comm _ _
  omega

lemma split_dataframe_getD {α : Type} (df : List α) (k i : Nat) (hk : 0 < k) :
    (split_dataframe df k).getD i [] = (df.drop (i * k)).take k := by
  unfold split_dataframe
  simp only [List.getD_eq_getElem?_getD, List.getElem?_map]
  by_cases hi : i < (df.length + k - 1) / k
  · simp [List.getElem?_range hi]
  · have key := ceil_mul_ge df.length k hk
    have hle : (df.length + k - 1) / k ≤ i := Nat.le_of_not_lt hi
    have hmul : (df.length + k - 1) / k * k ≤ i * k := Nat.mul_le_mul_right k hle
    have hik : df.length ≤ i * k := le_trans key hmul
    rw [List.getElem?_eq_none (by simpa using Nat.le_of_not_lt hi)]
    rw [List.drop_eq_nil_of_le hik]
    simp

/-- Claim C1: for every dataset `D` and chunk size `k > 0`, `split_dataframe D k`
returns exactly `⌈|D| / k⌉` batches; each batch `i` is the contiguous slice
`D[i*k : (i+1)*k]`; every batch except possibly the last has size exactly `k`
and no batch exceeds size `k`; and the concatenation of the batches equals `D`
in original order (hence the batches are non-overlapping, order-preserving
slices partitioning `D`).  The embedding is a pure function, so the input is
not mutated. -/
theorem C1_split_dataframe_correct {α : Type} (df : List α) (k : Nat) (hk : 0 < k) :
    (split_dataframe df k).length = (df.length + k - 1) / k ∧
    (split_dataframe df k).flatten = df ∧
    (∀ i, (split_dataframe df k).getD i [] = (df.drop (i * k)).take k) ∧
    (∀ i, i + 1 < (split_dataframe df k).length →
      ((split_dataframe df k).getD i []).length = k) ∧
    (∀ b ∈ split_dataframe df k, b.length ≤ k) := by
  have hlen : (split_dataframe df k).length = (df.length + k - 1) / k := by
    unfold split_dataframe
    simp
  refine ⟨hlen, ?_, fun i => split_dataframe_getD df k i hk, ?_, ?_⟩
  · unfold split_dataframe
    exact join_chunks k _ df (ceil_mul_ge df.length k hk)
  · intro i hi
    rw [hlen] at hi
    rw [split_dataframe_getD df k i hk]
    have hfit : (i + 1) * k ≤ df.length := by
      have h1 : i + 2 ≤ (df.length + k - 1) / k := hi
      have h2 : (i + 2) * k ≤ (df.length + k - 1) / k * k := Nat.mul_le_mul_right k h1
      have h3 : (df.length + k - 1) / k * k ≤ df.length + k - 1 := Nat.div_mul_le_self _ _
      have : (i + 2) * k = (i + 1) * k + k := by ring
      omega
    rw [List.length_take, List.length_drop]
    have : i * k + k ≤ df.length := by
      have : (i + 1) * k = i * k + k := by ring
      omega
    omega
  · intro b hb
    unfold split_dataframe at hb
    simp only [List.mem_map] at hb
    obtain ⟨i, _, rfl⟩ := hb
    exact List.length_take_le k _

/-- Witness for C1 at a concrete input: `[1,2,3,4,5]` split into chunks of 2
gives flattening back to the original list, and 3 = ⌈5/2⌉ chunks. -/
theorem C1_split_dataframe_correct_witness :
    0 < 2 ∧ (split_dataframe [1, 2, 3, 4, 5] 2).flatten = [1, 2, 3, 4, 5] ∧
      (split_dataframe [1, 2, 3, 4, 5] 2).length = 3 :=
  ⟨by decide, (C1_split_dataframe_correct [1, 2, 3, 4, 5] 2 (by decide)).2.1,
    (C1_split_dataframe_correct [1, 2, 3, 4, 5] 2 (by decide)).1⟩

/-! ### Geocode cache: `get_placename_from_coords` (analyze_population.py, lines 61-88)

Python:
```
cache = {}

def get_placename_from_coords(lon, lat, email_contact="contact@example.com"):
    key = (round(lon, 3), round(lat, 3))
    if key in cache:
        return cache[key]
    ...
    try:
        resp = requests.get(nominatim_url, headers=headers, timeout=30)
        resp.raise_for_status()
        data = resp.json()
        addr = data.get('address', {})
        placename = (
            addr.get('city') or addr.get('town') or addr.get('village') or
            addr.get('suburb') or addr.get('county') or addr.get('state') or
            addr.get('country') or data.get('display_name', '').split(',')[0]
        )
        placename = placename or f"Unknown Region ({lat:.2f},{lon:.2f})"
        cache[key] = placename
        return placename
    except requests.exceptions.RequestException as e:
        print(f"Error during Nominatim request for {lat},{lon}: {e}")
        return f"Error Region ({lat:.2f},{lon:.2f})"
    finally:
        time.sleep(1.0)
```
Coordinates are embedded as rationals (Python floats are binary; the rational
model captures the decimal-rounding behaviour of `round(x, n)` and `{x:.2f}`,
both of which round half to even).  The network is an oracle argument of type
`NetResult` describing what the single HTTP transaction would produce; the
ambient `cache` dict is an explicit association list threaded in and out, and
the observable effects (network calls, `time.sleep` durations, including the
`finally`-scoped 1.0s sleep) are returned as data. -/

/-- Round half to even of the rational value `n / d` (`d > 0`), on raw
numerator and denominator: the model of Python `round` at a rational input. -/
def roundHalfEvenND (n d : ℤ) : ℤ :=
  let f := Int.fdiv n d
  let r2 := 2 * (n - f * d)
  if r2 < d then f
  else if d < r2 then f + 1
  else if f % 2 = 0 then f else f + 1

/-- Python `round(x * s)` for an integer scale `s`: `round(x, k)` is
`pyRoundScaled x (10 ^ k) / 10 ^ k`.  Since dividing by the fixed scale is
injective, `pyRoundScaled x (10 ^ k)` is used directly wherever the code uses
`round(x, k)` as a dictionary key. -/
def pyRoundScaled (x : ℚ) (s : ℤ) : ℤ := roundHalfEvenND (x.num * s) (x.den : ℤ)

/-- Python `f"{x:.2f}"`: fixed two-decimal formatting (round half to even);
the sign is that of the input, so `-0.001` renders as `"-0.00"`. -/
def fmt2 (x : ℚ) : String :=
  let n := (pyRoundScaled x 100).natAbs
  let sign := if x.num < 0 then "-" else ""
  let fp := n % 100
  sign ++ toString (n / 100) ++ "." ++ (if fp < 10 then "0" else "") ++ toString fp

/-- The `address` JSON sub-object: each candidate field is absent (`none`) or a
string (which Python treats as falsy when empty). -/
structure Address where
  city : Option String
  town : Option String
  village : Option String
  suburb : Option String
  county : Option String
  state : Option String
  country : Option String
deriving DecidableEq

/-- Outcome of the single reverse-geocoding HTTP transaction: `failure` covers
every `requests.exceptions.RequestException` (connection error, timeout,
`raise_for_status`, malformed JSON); `success` carries the parsed `address`
object and the `display_name` string (defaulted to `""` when absent, matching
`data.get('display_name', '')`). -/
inductive NetResult where
  | failure (msg : String)
  | success (addr : Address) (display_name : String)
deriving DecidableEq

def NetResult.isSuccess : NetResult → Bool
  | .failure _ => false
  | .success _ _ => true

/-- The cache key `(round(lon, 3), round(lat, 3))`, stored scaled by 1000
(an injective relabeling, see `pyRoundScaled`). -/
def geoKey (lon lat : ℚ) : ℤ × ℤ := (pyRoundScaled lon 1000, pyRoundScaled lat 1000)

/-- The module-level `cache` dict, as an association list from rounded
(lon, lat) keys to place names. -/
abbrev GeoCache : Type := List ((ℤ × ℤ) × String)

def cacheLookup : GeoCache → ℤ × ℤ → Option String
  | [], _ => none
  | (k, v) :: rest, key => if k = key then some v else cacheLookup rest key

/-- Python truthiness chain `a or b or ...` over optional strings: the first
present, non-empty candidate (both `None` and `''` are falsy). -/
def firstTruthy (cands : List (Option String)) : Option String :=
  (cands.filterMap id).find? (fun s => !s.isEmpty)

/-- `data.get('display_name', '').split(',')[0]`: the prefix of the
display name up to (excluding) the first comma. -/
def firstSegment (dn : String) : String :=
  String.mk (dn.data.takeWhile (fun c => c ≠ ','))

/-- The candidate chain
`addr.get('city') or ... or addr.get('country') or display_name.split(',')[0]`. -/
def candidateList (addr : Address) (display_name : String) : List (Option String) :=
  [addr.city, addr.town, addr.village, addr.suburb, addr.county, addr.state,
    addr.country, some (firstSegment display_name)]

/-- Result of one call to `get_placename_from_coords`: the returned label, the
cache state afterwards, how many HTTP requests were issued, and the list of
`time.sleep` durations performed (in seconds). -/
structure ResolveResult where
  label : String
  cache : GeoCache
  netCalls : Nat
  sleeps : List ℚ
deriving DecidableEq

def unknownLabel (lat lon : ℚ) : String :=
  "Unknown Region (" ++ fmt2 lat ++ "," ++ fmt2 lon ++ ")"

def errorLabel (lat lon : ℚ) : String :=
  "Error Region (" ++ fmt2 lat ++ "," ++ fmt2 lon ++ ")"

/-- `get_placename_from_coords(lon, lat)` with the cache explicit and the
network transaction's outcome given by the oracle `net`.  The `finally:`
block sleeps 1.0s whenever the `try` body was entered, i.e. on every path
except the early cache-hit return. -/
def get_placename_from_coords (c : GeoCache) (lon lat : ℚ) (net : NetResult) :
    ResolveResult :=
  let key := geoKey lon lat
  match cacheLookup c key with
  | some v => { label := v, cache := c, netCalls := 0, sleeps := [] }
  | none =>
    match net with
    | .failure _ =>
      { label := errorLabel lat lon, cache := c, netCalls := 1, sleeps := [1] }
    | .success addr display_name =>
      let placename :=
        (firstTruthy (candidateList addr display_name)).getD (unknownLabel lat lon)
      { label := placename, cache := (key, placename) :: c, netCalls := 1,
        sleeps := [1] }

lemma cacheLookup_insert_self (c : GeoCache) (key : ℤ × ℤ) (v : String) :
    cacheLookup ((key, v) :: c) key = some v := by
  simp [cacheLookup]

/-- Claim C3: for a fixed GeoKey, two consecutive successful resolutions issue
at most one network call — the second call is a cache hit returning the
memoized label with no network request — while a resolution that fails leaves
the cache unchanged, so a subsequent call for the same key retries the
network (issues a network call again whenever the first call did). -/
theorem C3_cache_success_memoized_failure_not (c : GeoCache) (lon lat : ℚ)
    (n₁ n₂ : NetResult) (h₁ : n₁.isSuccess = true) (_h₂ : n₂.isSuccess = true) :
    ((get_placename_from_coords c lon lat n₁).netCalls +
        (get_placename_from_coords
          (get_placename_from_coords c lon lat n₁).cache lon lat n₂).netCalls ≤ 1 ∧
      (get_placename_from_coords
        (get_placename_from_coords c lon lat n₁).cache lon lat n₂).netCalls = 0 ∧
      (get_placename_from_coords
        (get_placename_from_coords c lon lat n₁).cache lon lat n₂).label =
        (get_placename_from_coords c lon lat n₁).label) ∧
    (∀ msg, (get_placename_from_coords c lon lat (NetResult.failure msg)).cache = c ∧
      (get_placename_from_coords
        (get_placename_from_coords c lon lat (NetResult.failure msg)).cache
        lon lat n₂).netCalls = (get_placename_from_coords c lon lat n₂).netCalls) := by
  cases n₁ with
  | failure m => simp [NetResult.isSuccess] at h₁
  | success addr dn =>
    constructor
    · cases hl : cacheLookup c (geoKey lon lat) with
      | some v => simp [get_placename_from_coords, hl]
      | none => simp [get_placename_from_coords, hl, cacheLookup_insert_self]
    · intro msg
      cases hl : cacheLookup c (geoKey lon lat) with
      | some v => simp [get_placename_from_coords, hl]
      | none => simp [get_placename_from_coords, hl]

def sampleAddr : Address :=
  { city := some "Auckland", town := none, village := none, suburb := none,
    county := none, state := none, country := none }

def sampleNet : NetResult := NetResult.success sampleAddr "Auckland, New Zealand"

/-- Witness for C3 at a concrete input: an empty cache, the Auckland CBD
coordinates, and a network oracle that succeeds twice. -/
theorem C3_cache_success_memoized_failure_not_witness :
    NetResult.isSuccess sampleNet = true ∧
    ((get_placename_from_coords [] (mkRat 174763 1000) (mkRat (-36848) 1000)
          sampleNet).netCalls +
        (get_placename_from_coords
          (get_placename_from_coords [] (mkRat 174763 1000) (mkRat (-36848) 1000)
            sampleNet).cache (mkRat 174763 1000) (mkRat (-36848) 1000)
          sampleNet).netCalls ≤ 1 ∧
      (get_placename_from_coords
        (get_placename_from_coords [] (mkRat 174763 1000) (mkRat (-36848) 1000)
          sampleNet).cache (mkRat 174763 1000) (mkRat (-36848) 1000)
        sampleNet).netCalls = 0 ∧
      (get_placename_from_coords
        (get_placename_from_coords [] (mkRat 174763 1000) (mkRat (-36848) 1000)
          sampleNet).cache (mkRat 174763 1000) (mkRat (-36848) 1000)
        sampleNet).label =
        (get_placename_from_coords [] (mkRat 174763 1000) (mkRat (-36848) 1000)
          sampleNet).label) :=
  ⟨by decide,
    (C3_cache_success_memoized_failure_not [] (mkRat 174763 1000)
      (mkRat (-36848) 1000) sampleNet sampleNet (by decide) (by decide)).1⟩

/-- Claim C6: on any network/transport failure during reverse geocoding (a
miss followed by a failing HTTP transaction), the resolution returns the
synthesized label `"Error Region (<lat>,<lon>)"` with the coordinates
formatted to 2 decimal places, leaves the cache unchanged, and — being a
total function — does not raise. -/
theorem C6_network_failure_error_label (c : GeoCache) (lon lat : ℚ) (msg : String)
    (hmiss : cacheLookup c (geoKey lon lat) = none) :
    get_placename_from_coords c lon lat (NetResult.failure msg) =
      { label := "Error Region (" ++ fmt2 lat ++ "," ++ fmt2 lon ++ ")",
        cache := c, netCalls := 1, sleeps := [1] } := by
  simp [get_placename_from_coords, hmiss, errorLabel]

/-- Witness for C6: a timeout at lon 170.5, lat -45.9 yields the label
`"Error Region (-45.90,170.50)"`. -/
theorem C6_network_failure_error_label_witness :
    cacheLookup [] (geoKey (mkRat 1705 10) (mkRat (-459) 10)) = none ∧
    get_placename_from_coords [] (mkRat 1705 10) (mkRat (-459) 10)
        (NetResult.failure "timeout") =
      { label := "Error Region (-45.90,170.50)", cache := [], netCalls := 1,
        sleeps := [1] } :=
  ⟨rfl,
    (C6_network_failure_error_label [] (mkRat 1705 10) (mkRat (-459) 10)
      "timeout" rfl).trans (by decide)⟩

/-- Claim C8: a call whose GeoKey is cached returns with no network request
and no rate-limit sleep; a call whose GeoKey is not cached performs exactly
one network attempt and exactly one fixed 1.0-second sleep, whatever the
outcome of the attempt (success, no-candidate success, or failure) — the
`finally:` block runs on every path through the `try` body. -/
theorem C8_hit_no_sleep_miss_one_sleep (c : GeoCache) (lon lat : ℚ)
    (net : NetResult) :
    (∀ v, cacheLookup c (geoKey lon lat) = some v →
      (get_placename_from_coords c lon lat net).netCalls = 0 ∧
      (get_placename_from_coords c lon lat net).sleeps = []) ∧
    (cacheLookup c (geoKey lon lat) = none →
      (get_placename_from_coords c lon lat net).netCalls = 1 ∧
      (get_placename_from_coords c lon lat net).sleeps = [1]) := by
  constructor
  · intro v hv
    simp [get_placename_from_coords, hv]
  · intro hmiss
    cases net with
    | failure m => simp [get_placename_from_coords, hmiss]
    | success addr dn => simp [get_placename_from_coords, hmiss]

/-- Witness for C8: a concrete hit (pre-seeded cache) sleeps 0 times; a
concrete miss sleeps exactly once. -/
theorem C8_hit_no_sleep_miss_one_sleep_witness :
    (cacheLookup [(geoKey (mkRat 1705 10) (mkRat (-459) 10), "Dunedin")]
        (geoKey (mkRat 1705 10) (mkRat (-459) 10)) = some "Dunedin" ∧
      (get_placename_from_coords
        [(geoKey (mkRat 1705 10) (mkRat (-459) 10), "Dunedin")]
        (mkRat 1705 10) (mkRat (-459) 10) sampleNet).netCalls = 0 ∧
      (get_placename_from_coords
        [(geoKey (mkRat 1705 10) (mkRat (-459) 10), "Dunedin")]
        (mkRat 1705 10) (mkRat (-459) 10) sampleNet).sleeps = []) ∧
    (cacheLookup [] (geoKey (mkRat 1705 10) (mkRat (-459) 10)) = none ∧
      (get_placename_from_coords [] (mkRat 1705 10) (mkRat (-459) 10)
        sampleNet).netCalls = 1 ∧
      (get_placename_from_coords [] (mkRat 1705 10) (mkRat (-459) 10)
        sampleNet).sleeps = [1]) :=
  ⟨⟨by decide,
      (C8_hit_no_sleep_miss_one_sleep
        [(geoKey (mkRat 1705 10) (mkRat (-459) 10), "Dunedin")]
        (mkRat 1705 10) (mkRat (-459) 10) sampleNet).1 "Dunedin" (by decide)⟩,
    ⟨by decide,
      (C8_hit_no_sleep_miss_one_sleep [] (mkRat 1705 10) (mkRat (-459) 10)
        sampleNet).2 (by decide)⟩⟩

/-- Claim C10: a reverse-geocoding request that succeeds over the network but
yields no resolvable address candidate (every priority field absent or empty
and the first display-name segment empty) is memoized like a success: the
synthesized `"Unknown Region (<lat>,<lon>)"` label is stored in the cache,
and every later resolution of the same GeoKey returns that cached label with
no further network request, whatever the new oracle outcome would be. -/
theorem C10_unknown_region_memoized (c : GeoCache) (lon lat : ℚ)
    (addr : Address) (dn : String) (net₂ : NetResult)
    (hmiss : cacheLookup c (geoKey lon lat) = none)
    (hnone : firstTruthy (candidateList addr dn) = none) :
    (get_placename_from_coords c lon lat (NetResult.success addr dn)).label =
      unknownLabel lat lon ∧
    cacheLookup (get_placename_from_coords c lon lat
        (NetResult.success addr dn)).cache (geoKey lon lat) =
      some (unknownLabel lat lon) ∧
    (get_placename_from_coords
      (get_placename_from_coords c lon lat (NetResult.success addr dn)).cache
      lon lat net₂).netCalls = 0 ∧
    (get_placename_from_coords
      (get_placename_from_coords c lon lat (NetResult.success addr dn)).cache
      lon lat net₂).label = unknownLabel lat lon := by
  simp [get_placename_from_coords, hmiss, hnone, cacheLookup_insert_self]

def emptyAddr : Address :=
  { city := none, town := none, village := none, suburb := none,
    county := none, state := none, country := none }

/-- Witness for C10: a candidate-free success at lon 170.5, lat -45.9 caches
and returns `"Unknown Region (-45.90,170.50)"`, and the follow-up call (here
given a failing oracle) is a no-network cache hit on that label. -/
theorem C10_unknown_region_memoized_witness :
    cacheLookup [] (geoKey (mkRat 1705 10) (mkRat (-459) 10)) = none ∧
    (get_placename_from_coords [] (mkRat 1705 10) (mkRat (-459) 10)
        (NetResult.success emptyAddr "")).label =
      unknownLabel (mkRat (-459) 10) (mkRat 1705 10) ∧
    cacheLookup (get_placename_from_coords [] (mkRat 1705 10) (mkRat (-459) 10)
        (NetResult.success emptyAddr "")).cache
        (geoKey (mkRat 1705 10) (mkRat (-459) 10)) =
      some (unknownLabel (mkRat (-459) 10) (mkRat 1705 10)) ∧
    (get_placename_from_coords
      (get_placename_from_coords [] (mkRat 1705 10) (mkRat (-459) 10)
        (NetResult.success emptyAddr "")).cache
      (mkRat 1705 10) (mkRat (-459) 10) (NetResult.failure "down")).netCalls = 0 ∧
    (get_placename_from_coords
      (get_placename_from_coords [] (mkRat 1705 10) (mkRat (-459) 10)
        (NetResult.success emptyAddr "")).cache
      (mkRat 1705 10) (mkRat (-459) 10) (NetResult.failure "down")).label =
      unknownLabel (mkRat (-459) 10) (mkRat 1705 10) :=
  ⟨by decide,
    C10_unknown_region_memoized [] (mkRat 1705 10) (mkRat (-459) 10) emptyAddr ""
      (NetResult.failure "down") (by decide) (by decide)⟩

/-! ### Text generator: `generate_text` (analyze_population.py, lines 91-103)

Python:
```
def generate_text(prompt: str) -> str:
    if not _OLLAMA_OK:
        first_line = next((ln for ln in prompt.splitlines() if ln.strip()), "")
        return f"[LLM disabled] {first_line[:200]}{ '...' if len(first_line) > 200 else '' }"
    try:
        print("Querying LLM...")
        resp = ollama.chat(model=model_name, messages=[{'role': 'user', 'content': prompt}])
        if isinstance(resp, dict) and 'message' in resp and isinstance(resp['message'], dict):
            return resp['message'].get('content', str(resp))
        return str(resp)
    except Exception as e:
        print(f"Ollama call failed: {e}")
        return f"[Error generating text: {e}]"
```
The backend (`_OLLAMA_OK` plus `ollama.chat`) is an oracle: `disabled`, or
`enabled` with a function giving, per prompt, either the chat response value
or the exception message the call would raise. -/

/-- The line-boundary characters of Python `str.splitlines`
(`\r\n` is additionally treated as a single boundary). -/
def isLineBreak (c : Char) : Bool :=
  c = '\n' || c = '\r' || c = '\x0b' || c = '\x0c' ||
  c = '\x1c' || c = '\x1d' || c = '\x1e' || c = '\x85' ||
  c = '\u2028' || c = '\u2029'

/-- Split off the first line: the prefix before the first line boundary, and
the remainder after the boundary (consuming `\r\n` as one boundary). -/
def breakLine : List Char → List Char × List Char
  | [] => ([], [])
  | c :: cs =>
    if isLineBreak c then
      ([], if c = '\r' ∧ cs.head? = some '\n' then cs.tail else cs)
    else
      let p := breakLine cs
      (c :: p.1, p.2)

lemma breakLine_snd_le : ∀ cs : List Char, (breakLine cs).2.length ≤ cs.length := by
  intro cs
  induction cs with
  | nil => simp [breakLine]
  | cons c cs ih =>
    simp only [breakLine]
    split
    · split
      · simp only [List.length_tail, List.length_cons]
        omega
      · simp only [List.length_cons]
        omega
    · simp only [List.length_cons]
      omega

lemma breakLine_snd_lt (c : Char) (cs : List Char) :
    (breakLine (c :: cs)).2.length < (c :: cs).length := by
  simp only [breakLine]
  split
  · split
    · simp only [List.length_tail, List.length_cons]
      omega
    · simp only [List.length_cons]
      omega
  · simp only [List.length_cons]
    have := breakLine_snd_le cs
    omega

/-- Python `str.splitlines`, structurally recursive on a fuel argument so
that the kernel can evaluate it; each step consumes at least one character
(`breakLine_snd_lt`), so any fuel of at least `cs.length` is enough and the
`0, _ :: _` branch is unreachable from `splitlines`. -/
def splitlinesF : Nat → List Char → List (List Char)
  | _, [] => []
  | 0, _ :: _ => []
  | fuel + 1, c :: rest =>
    (breakLine (c :: rest)).1 :: splitlinesF fuel (breakLine (c :: rest)).2

/-- Python `str.splitlines` on the character list of a string. -/
def splitlines (cs : List Char) : List (List Char) := splitlinesF cs.length cs

lemma splitlinesF_congr :
    ∀ (f g : Nat) (cs : List Char), cs.length ≤ f → cs.length ≤ g →
      splitlinesF f cs = splitlinesF g cs := by
  intro f
  induction f with
  | zero =>
    intro g cs hf _
    have : cs = [] := List.eq_nil_of_length_eq_zero (Nat.le_zero.mp hf)
    subst this
    cases g <;> simp [splitlinesF]
  | succ f ih =>
    intro g cs hf hg
    cases cs with
    | nil => cases g <;> simp [splitlinesF]
    | cons c rest =>
      cases g with
      | zero => simp at hg
      | succ g =>
        simp only [splitlinesF]
        have hlt := breakLine_snd_lt c rest
        simp only [List.length_cons] at hf hg hlt
        exact congrArg _ (ih g _ (by omega) (by omega))

/-- Any fuel of at least `cs.length` computes `splitlines`. -/
lemma splitlinesF_eq_splitlines (fuel : Nat) (cs : List Char)
    (h : cs.length ≤ fuel) : splitlinesF fuel cs = splitlines cs :=
  splitlinesF_congr fuel cs.length cs h (Nat.le_refl _)

/-- The whitespace characters stripped by Python `str.strip()`
(the `str.isspace` set). -/
def pyIsSpace (c : Char) : Bool :=
  c = ' ' || c = '\t' || c = '\n' || c = '\x0b' || c = '\x0c' || c = '\r' ||
  c = '\x1c' || c = '\x1d' || c = '\x1e' || c = '\x1f' || c = '\x85' ||
  c = '\xa0' || c = ' ' ||
  ('\u2000' ≤ c && c ≤ '\u200a') ||
  c = '\u2028' || c = '\u2029' || c = ' ' || c = ' ' || c = '　'

/-- `next((ln for ln in prompt.splitlines() if ln.strip()), "")`: the first
line containing a non-whitespace character, defaulting to the empty string
(`ln.strip()` is truthy exactly when such a character exists). -/
def firstNonBlankLine (prompt : String) : List Char :=
  ((splitlines prompt.data).find? (fun ln => ln.any (fun c => !pyIsSpace c))).getD []

/-- A value of `ollama.chat(...)`: either a dict with a `'message'` dict
(whose `'content'` may be absent), or any other value; `repr` stands for
Python `str(resp)`. -/
inductive OllamaResp where
  | messageDict (content : Option String) (repr : String)
  | other (repr : String)

/-- The text-generation backend oracle: not configured (`_OLLAMA_OK` false),
or configured with the outcome each chat call would have (`Except.error` is
the message of the exception the call would raise). -/
inductive Backend where
  | disabled
  | enabled (respond : String → Except String OllamaResp)

/-- `generate_text(prompt)` under backend oracle `b`. -/
def generate_text (b : Backend) (prompt : String) : String :=
  match b with
  | .disabled =>
    let first_line := firstNonBlankLine prompt
    "[LLM disabled] " ++ String.mk (first_line.take 200) ++
      (if 200 < first_line.length then "..." else "")
  | .enabled respond =>
    match respond prompt with
    | .ok (.messageDict content r) => content.getD r
    | .ok (.other r) => r
    | .error e => "[Error generating text: " ++ e ++ "]"

/-- Claim C4: `generate_text` is a total function (it never raises).  With no
backend configured it returns the deterministic stub: the disabled-backend
marker `"[LLM disabled] "` followed by the first non-blank line of the prompt
truncated to 200 characters, with the trailing `"..."` marker exactly when
that line exceeds 200 characters.  With a backend configured, a backend error
yields the inline `"[Error generating text: ...]"` marker string instead of
an exception.  The spec's concrete scenario holds: on `"Line one\nLine two"`
the stub embeds `"Line one"`. -/
theorem C4_generate_text_never_raises (prompt : String) :
    (generate_text Backend.disabled prompt =
      "[LLM disabled] " ++ String.mk ((firstNonBlankLine prompt).take 200) ++
        (if 200 < (firstNonBlankLine prompt).length then "..." else "")) ∧
    (∀ (respond : String → Except String OllamaResp) (e : String),
      respond prompt = Except.error e →
      generate_text (Backend.enabled respond) prompt =
        "[Error generating text: " ++ e ++ "]") ∧
    generate_text Backend.disabled "Line one\nLine two" =
      "[LLM disabled] Line one" := by
  refine ⟨rfl, ?_, by decide⟩
  intro respond e he
  simp [generate_text, he]

/-- Witness for C4: a backend whose call raises `"connection refused"` yields
the inline error marker. -/
theorem C4_generate_text_never_raises_witness :
    ((fun _ => Except.error "connection refused" :
        String → Except String OllamaResp) "any prompt" =
      Except.error "connection refused") ∧
    generate_text (Backend.enabled (fun _ => Except.error "connection refused"))
        "any prompt" =
      "[Error generating text: connection refused]" :=
  ⟨rfl,
    ((C4_generate_text_never_raises "any prompt").2.1
      (fun _ => Except.error "connection refused") "connection refused"
      rfl).trans (by decide)⟩

/-! ### Output sanitizer, part 1: score extraction
(analyze_population.py, lines 182-199)

Python:
```
score = 50 # Default score
try:
    potential_scores = re.findall(r'\d+', cleaned_score_text)
    for num_str in potential_scores:
        num = int(num_str)
        if 1 <= num <= 100:
            score = num
            break
    else:
        print(f"Warning: No valid score found in LLM output. Defaulting to 50.")
except (ValueError, TypeError):
    print(f"Warning: Error parsing LLM output. Defaulting to 50.")
    score = 50
```
`re.findall(r'\d+', s)` lists the maximal digit runs of `s`, left to right
(digits modelled as ASCII `0-9`); `int` on a non-empty digit string cannot
raise, so the `except` arm is unreachable and the result is the first run
whose value is in `[1, 100]`, else the default 50. -/

/-- The maximal digit runs of a character list, left to right, with an
accumulator holding the current run reversed. -/
def digitRunsAux : List Char → List Char → List (List Char)
  | [], acc => if acc.isEmpty then [] else [acc.reverse]
  | c :: cs, acc =>
    if c.isDigit then digitRunsAux cs (c :: acc)
    else if acc.isEmpty then digitRunsAux cs []
    else acc.reverse :: digitRunsAux cs []

/-- `re.findall(r'\d+', s)`. -/
def digitRuns (cs : List Char) : List (List Char) := digitRunsAux cs []

/-- `int(num_str)` for a digit string: its base-10 value. -/
def natOfDigits (ds : List Char) : Nat :=
  ds.foldl (fun a c => 10 * a + (c.toNat - '0'.toNat)) 0

/-- `1 <= num <= 100`. -/
def inScoreRange (n : Nat) : Bool := decide (1 ≤ n ∧ n ≤ 100)

/-- The score-extraction step of the main loop. -/
def extract_score (text : String) : Nat :=
  match (digitRuns text.data).find? (fun r => inScoreRange (natOfDigits r)) with
  | some r => natOfDigits r
  | none => 50

lemma find?_eq_head?_filter {α : Type} (p : α → Bool) :
    ∀ l : List α, l.find? p = (l.filter p).head? := by
  intro l
  induction l with
  | nil => simp
  | cons a l ih =>
    cases h : p a with
    | true => rw [List.find?_cons_of_pos _ h, List.filter_cons_of_pos h, List.head?_cons]
    | false =>
      rw [List.find?_cons_of_neg _ (by simp [h]), List.filter_cons_of_neg (by simp [h]), ih]

/-- Claim C2: the score extraction always returns an integer in `[1, 100]`;
it returns the value of the first maximal digit run (left to right) whose
value lies in `[1, 100]`, and the default 50 when no digit run qualifies
(the `int` conversion of a digit run cannot fail, so the parse-error default
coincides); in particular
`extract_score "score: 3, then 150, then 42" = 3` and
`extract_score "no numbers here" = 50`. -/
theorem C2_extract_score_first_in_range (text : String) :
    (1 ≤ extract_score text ∧ extract_score text ≤ 100) ∧
    extract_score text =
      ((((digitRuns text.data).map natOfDigits).filter inScoreRange).head?).getD 50 ∧
    extract_score "score: 3, then 150, then 42" = 3 ∧
    extract_score "no numbers here" = 50 := by
  refine ⟨?_, ?_, by decide, by decide⟩
  · unfold extract_score
    cases h : (digitRuns text.data).find? (fun r => inScoreRange (natOfDigits r)) with
    | none => exact ⟨by decide, by decide⟩
    | some r =>
      have hp := List.find?_some h
      simp only [inScoreRange, decide_eq_true_eq] at hp
      simpa using hp
  · rw [List.filter_map, List.head?_map, ← find?_eq_head?_filter]
    unfold extract_score
    cases h : (digitRuns text.data).find? (fun r => inScoreRange (natOfDigits r)) with
    | none =>
      rw [show (inScoreRange ∘ natOfDigits) =
        (fun r => inScoreRange (natOfDigits r)) from rfl, h]
      rfl
    | some r =>
      rw [show (inScoreRange ∘ natOfDigits) =
        (fun r => inScoreRange (natOfDigits r)) from rfl, h]
      rfl

/-! ### Output sanitizer, part 2: `clean_llm_output`
(analyze_population.py, lines 105-119)

Python:
```
def clean_llm_output(text: str) -> str:
    text = str(text)
    for quote_char in ['"', "'"]:
        pattern = f"content={quote_char}"
        if pattern in text:
            try:
                start = text.find(pattern) + len(pattern)
                end_marker = f"{quote_char}, thinking=None"
                end = text.rfind(end_marker, start)
                if end != -1:
                    content = text[start:end]
                    return codecs.decode(content, 'unicode_escape')
            except Exception:
                continue
    return text
```
`text.find` / `text.rfind(sub, start)` are the lowest / highest occurrence
index; a failing stage (pattern absent, end marker not found, or the decode
raising) falls through to the next quote character and finally to returning
the input unchanged.  `codecs.decode(·, 'unicode_escape')` is modelled by
`pyUnicodeEscape`, with `none` for the raising cases: a character above
`U+00FF` anywhere (the implicit latin-1 encode fails), a trailing lone
backslash, malformed `\x`/`\u`/`\U` escapes, and `\N{...}` name escapes
(name lookup is outside the model); escapes that would produce a lone
surrogate are also modelled as `none` (Lean characters are scalar values). -/

/-- Whether `pat` is a prefix of `text`. -/
def matchesAt : List Char → List Char → Bool
  | [], _ => true
  | _ :: _, [] => false
  | p :: ps, c :: cs => p = c && matchesAt ps cs

def findSubAux (pat : List Char) : List Char → Nat → Option Nat
  | [], i => if matchesAt pat [] then some i else none
  | c :: rest, i =>
    if matchesAt pat (c :: rest) then some i else findSubAux pat rest (i + 1)

/-- Python `text.find(pat)` (as `Option`): lowest index of an occurrence. -/
def findSub (text pat : List Char) : Option Nat := findSubAux pat text 0

/-- Python `text.rfind(pat, start)` (as `Option`): highest index `≥ start`
at which an occurrence of `pat` begins. -/
def rfindFrom (text pat : List Char) (start : Nat) : Option Nat :=
  ((List.range (text.length + 1)).filter
    (fun i => decide (start ≤ i) && matchesAt pat (text.drop i))).getLast?

def hexVal (c : Char) : Option Nat :=
  if '0' ≤ c ∧ c ≤ '9' then some (c.toNat - '0'.toNat)
  else if 'a' ≤ c ∧ c ≤ 'f' then some (c.toNat - 'a'.toNat + 10)
  else if 'A' ≤ c ∧ c ≤ 'F' then some (c.toNat - 'A'.toNat + 10)
  else none

def isOctDigit (c : Char) : Bool := '0' ≤ c && c ≤ '7'

def octVal (c : Char) : Nat := c.toNat - '0'.toNat

/-- `codecs.decode(content, 'unicode_escape')`, `none` for the raising cases
(see the section comment); structurally recursive on a fuel argument so that
the kernel can evaluate it.  Every branch consumes at least one input
character per unit of fuel, so the fuel `cs.length` supplied by
`pyUnicodeEscape` never runs out and the `0, _ :: _` branch is unreachable
from it. -/
def pyUnicodeEscapeF : Nat → List Char → Option (List Char)
  | _, [] => some []
  | 0, _ :: _ => none
  | fuel + 1, '\\' :: rest =>
    match rest with
    | [] => none
    | '\n' :: cs => pyUnicodeEscapeF fuel cs
    | '\\' :: cs => (pyUnicodeEscapeF fuel cs).map (fun l => '\\' :: l)
    | '\'' :: cs => (pyUnicodeEscapeF fuel cs).map (fun l => '\'' :: l)
    | '"' :: cs => (pyUnicodeEscapeF fuel cs).map (fun l => '"' :: l)
    | 'a' :: cs => (pyUnicodeEscapeF fuel cs).map (fun l => '\x07' :: l)
    | 'b' :: cs => (pyUnicodeEscapeF fuel cs).map (fun l => '\x08' :: l)
    | 'f' :: cs => (pyUnicodeEscapeF fuel cs).map (fun l => '\x0c' :: l)
    | 'n' :: cs => (pyUnicodeEscapeF fuel cs).map (fun l => '\n' :: l)
    | 'r' :: cs => (pyUnicodeEscapeF fuel cs).map (fun l => '\r' :: l)
    | 't' :: cs => (pyUnicodeEscapeF fuel cs).map (fun l => '\t' :: l)
    | 'v' :: cs => (pyUnicodeEscapeF fuel cs).map (fun l => '\x0b' :: l)
    | 'x' :: h1 :: h2 :: cs =>
      match hexVal h1, hexVal h2 with
      | some a, some b => (pyUnicodeEscapeF fuel cs).map (fun l => Char.ofNat (16 * a + b) :: l)
      | _, _ => none
    | 'x' :: _ => none
    | 'u' :: h1 :: h2 :: h3 :: h4 :: cs =>
      match hexVal h1, hexVal h2, hexVal h3, hexVal h4 with
      | some a, some b, some c, some d =>
        let v := 4096 * a + 256 * b + 16 * c + d
        if 0xD800 ≤ v ∧ v ≤ 0xDFFF then none
        else (pyUnicodeEscapeF fuel cs).map (fun l => Char.ofNat v :: l)
      | _, _, _, _ => none
    | 'u' :: _ => none
    | 'U' :: h1 :: h2 :: h3 :: h4 :: h5 :: h6 :: h7 :: h8 :: cs =>
      match hexVal h1, hexVal h2, hexVal h3, hexVal h4,
          hexVal h5, hexVal h6, hexVal h7, hexVal h8 with
      | some a, some b, some c, some d, some e, some f, some g, some h =>
        let v := 268435456 * a + 16777216 * b + 1048576 * c + 65536 * d +
          4096 * e + 256 * f + 16 * g + h
        if (0xD800 ≤ v ∧ v ≤ 0xDFFF) ∨ 0x10FFFF < v then none
        else (pyUnicodeEscapeF fuel cs).map (fun l => Char.ofNat v :: l)
      | _, _, _, _, _, _, _, _ => none
    | 'U' :: _ => none
    | 'N' :: _ => none
    | c :: cs =>
      if isOctDigit c then
        match cs with
        | d2 :: cs2 =>
          if isOctDigit d2 then
            match cs2 with
            | d3 :: cs3 =>
              if isOctDigit d3 then
                (pyUnicodeEscapeF fuel cs3).map
                  (fun l => Char.ofNat (64 * octVal c + 8 * octVal d2 + octVal d3) :: l)
              else
                (pyUnicodeEscapeF fuel cs2).map
                  (fun l => Char.ofNat (8 * octVal c + octVal d2) :: l)
            | [] =>
              (pyUnicodeEscapeF fuel ([] : List Char)).map
                (fun l => Char.ofNat (8 * octVal c + octVal d2) :: l)
          else (pyUnicodeEscapeF fuel cs).map (fun l => Char.ofNat (octVal c) :: l)
        | [] => (pyUnicodeEscapeF fuel ([] : List Char)).map
            (fun l => Char.ofNat (octVal c) :: l)
      else if c.toNat ≤ 0xFF then
        (pyUnicodeEscapeF fuel cs).map (fun l => '\\' :: c :: l)
      else none
  | fuel + 1, c :: cs =>
    if c.toNat ≤ 0xFF then (pyUnicodeEscapeF fuel cs).map (fun l => c :: l)
    else none

/-- `codecs.decode(content, 'unicode_escape')` (see `pyUnicodeEscapeF`). -/
def pyUnicodeEscape (cs : List Char) : Option (List Char) :=
  pyUnicodeEscapeF cs.length cs

/-- One iteration of the quote-character loop of `clean_llm_output`: `none`
when the pattern is absent, the end marker is not found after it, or the
escape decode raises. -/
def tryQuote (q : Char) (text : List Char) : Option (List Char) :=
  let pat := "content=".data ++ [q]
  match findSub text pat with
  | none => none
  | some idx =>
    let start := idx + pat.length
    match rfindFrom text (q :: ", thinking=None".data) start with
    | none => none
    | some e => pyUnicodeEscape ((text.drop start).take (e - start))

/-- `clean_llm_output(text)`. -/
def clean_llm_output (text : String) : String :=
  match tryQuote '"' text.data with
  | some r => String.mk r
  | none =>
    match tryQuote '\'' text.data with
    | some r => String.mk r
    | none => text

/-- Claim C5: `clean_llm_output` strips a `content="..."` or `content='...'`
envelope followed by a `thinking=None` marker when present, decoding literal
escape sequences in the extracted content — on the spec's example the
two-character sequence backslash-`n` becomes a real newline; whenever neither
quote character yields a successful precise match (pattern absent, end marker
missing, or decode failure — i.e. the pattern is absent or malformed), the
input string is returned unchanged; the function is total, so it never
raises. -/
theorem C5_clean_llm_output_tolerant (text : String) :
    (tryQuote '"' text.data = none → tryQuote '\'' text.data = none →
      clean_llm_output text = text) ∧
    (∀ r, tryQuote '"' text.data = some r → clean_llm_output text = String.mk r) ∧
    clean_llm_output "content=\"hello \\nworld\", thinking=None" = "hello \nworld" := by
  refine ⟨?_, ?_, by decide⟩
  · intro h1 h2
    simp [clean_llm_output, h1, h2]
  · intro r h1
    simp [clean_llm_output, h1]

/-- Witness for C5: on a wrapper-free string both quote characters fail to
match and the input comes back unchanged. -/
theorem C5_clean_llm_output_tolerant_witness :
    (tryQuote '"' "plain model output".data = none ∧
      tryQuote '\'' "plain model output".data = none) ∧
    clean_llm_output "plain model output" = "plain model output" :=
  ⟨⟨by decide, by decide⟩,
    (C5_clean_llm_output_tolerant "plain model output").1 (by decide) (by decide)⟩

/-! ### Batch orchestrator: the main processing loop
(analyze_population.py, lines 122-201)

Python (per chunk `i`):
```
if chunk.empty or 'CENTROID_X' not in chunk.columns or 'CENTROID_Y' not in chunk.columns:
    continue
chunk_centroid_x = chunk['CENTROID_X'].mean()
chunk_centroid_y = chunk['CENTROID_Y'].mean()
if pd.isna(chunk_centroid_x) or pd.isna(chunk_centroid_y):
    continue
try:
    wgs84_lon, wgs84_lat = transformer.transform(chunk_centroid_x, chunk_centroid_y)
except Exception:
    continue
chunk_placename = get_placename_from_coords(wgs84_lon, wgs84_lat)
if 'PopEst2023' not in chunk.columns:
    continue
summary = chunk['PopEst2023'].agg(['mean', 'sum', 'max', 'min']).to_frame().T
chunk_id = f"{chunk_placename} (Chunk {i+1})"
chunk_populations.append({'Placename': chunk_id, 'Population': summary['sum'].iloc[0]})
content = generate_text(analysis_prompt); reports.append((i+1, chunk_placename, content)); time.sleep(2)
policy_content = generate_text(policy_prompt); policy_suggestions.append((i+1, chunk_placename, policy_content)); time.sleep(2)
livability_score_text = generate_text(livability_prompt)
cleaned_score_text = clean_llm_output(livability_score_text)
score = ...  # extract_score
chunk_livability.append({'Placename': chunk_id, 'Livability': score})
time.sleep(2)
```
A chunk is embedded by the observations the loop makes of it (emptiness,
column presence, centroid means with `none` for NaN, population summary);
the per-chunk environment carries the oracle outcomes of the coordinate
transform (`none` = exception, skipping the batch), of the geocoding network
transaction, and the three strings `generate_text` returned (that function
is total, so abstracting its results as oracle strings is a faithful
boundary).  The fixed 2.0s inter-call pauses have no bearing on the claims
below and are not reified. -/

structure Chunk where
  size : Nat
  hasCentroidX : Bool
  hasCentroidY : Bool
  centroidXMean : Option ℚ
  centroidYMean : Option ℚ
  hasPopEst : Bool
  popMean : ℚ
  popSum : ℚ
  popMax : ℚ
  popMin : ℚ

structure ChunkEnv where
  transform : Option (ℚ × ℚ)
  net : NetResult
  analysisText : String
  policyText : String
  livabilityText : String

/-- The four accumulator lists and the geocode cache, i.e. the mutable
program state the loop touches. -/
structure LoopState where
  cache : GeoCache
  reports : List (Nat × String × String)
  policy_suggestions : List (Nat × String × String)
  chunk_populations : List (String × ℚ)
  chunk_livability : List (String × Nat)

def initState : LoopState :=
  { cache := [], reports := [], policy_suggestions := [],
    chunk_populations := [], chunk_livability := [] }

/-- `f"{chunk_placename} (Chunk {i+1})"` with `idx = i + 1`. -/
def chunkIdOf (label : String) (idx : Nat) : String :=
  label ++ " (Chunk " ++ toString idx ++ ")"

/-- One iteration of the loop body for chunk index `i` (0-based). -/
def processChunk (st : LoopState) (i : Nat) (ck : Chunk) (env : ChunkEnv) :
    LoopState :=
  if ck.size == 0 || !ck.hasCentroidX || !ck.hasCentroidY then st
  else match ck.centroidXMean, ck.centroidYMean with
    | none, _ => st
    | some _, none => st
    | some _, some _ =>
      match env.transform with
      | none => st
      | some (lon, lat) =>
        let r := get_placename_from_coords st.cache lon lat env.net
        let st1 := { st with cache := r.cache }
        if !ck.hasPopEst then st1
        else
          { st1 with
            chunk_populations :=
              st1.chunk_populations ++ [(chunkIdOf r.label (i + 1), ck.popSum)],
            reports := st1.reports ++ [(i + 1, r.label, env.analysisText)],
            policy_suggestions :=
              st1.policy_suggestions ++ [(i + 1, r.label, env.policyText)],
            chunk_livability := st1.chunk_livability ++
              [(chunkIdOf r.label (i + 1),
                extract_score (clean_llm_output env.livabilityText))] }

/-- The whole loop, starting at chunk index `i`. -/
def runLoop (st : LoopState) (i : Nat) : List (Chunk × ChunkEnv) → LoopState
  | [] => st
  | p :: rest => runLoop (processChunk st i p.1 p.2) (i + 1) rest

/-- The disjunction of the per-batch skip conditions, in source order: empty
batch, missing centroid column, NaN centroid mean, transform failure,
missing population column. -/
def skipsBatch (ck : Chunk) (env : ChunkEnv) : Bool :=
  ck.size == 0 || !ck.hasCentroidX || !ck.hasCentroidY ||
  ck.centroidXMean.isNone || ck.centroidYMean.isNone ||
  env.transform.isNone || !ck.hasPopEst

/-- The per-batch output record (the spec's ChunkRecord): batch index
(1-based), place label, the two narrative texts, population sum, and the
livability score. -/
structure ChunkRecord where
  idx : Nat
  label : String
  analysis : String
  policy : String
  pop : ℚ
  score : Nat

def toReport (r : ChunkRecord) : Nat × String × String := (r.idx, r.label, r.analysis)

def toPolicy (r : ChunkRecord) : Nat × String × String := (r.idx, r.label, r.policy)

def toPopulation (r : ChunkRecord) : String × ℚ := (chunkIdOf r.label r.idx, r.pop)

def toLivability (r : ChunkRecord) : String × Nat := (chunkIdOf r.label r.idx, r.score)

/-- The records the loop emits (and the final cache), computed directly:
used to relate the four accumulators to a single per-batch record list. -/
def runRecords (c : GeoCache) (i : Nat) :
    List (Chunk × ChunkEnv) → GeoCache × List ChunkRecord
  | [] => (c, [])
  | (ck, env) :: rest =>
    if ck.size == 0 || !ck.hasCentroidX || !ck.hasCentroidY then
      runRecords c (i + 1) rest
    else match ck.centroidXMean, ck.centroidYMean with
      | none, _ => runRecords c (i + 1) rest
      | some _, none => runRecords c (i + 1) rest
      | some _, some _ =>
        match env.transform with
        | none => runRecords c (i + 1) rest
        | some (lon, lat) =>
          let r := get_placename_from_coords c lon lat env.net
          if !ck.hasPopEst then runRecords r.cache (i + 1) rest
          else
            let rcd : ChunkRecord :=
              { idx := i + 1, label := r.label, analysis := env.analysisText,
                policy := env.policyText, pop := ck.popSum,
                score := extract_score (clean_llm_output env.livabilityText) }
            let p := runRecords r.cache (i + 1) rest
            (p.1, rcd :: p.2)

lemma runLoop_eq_runRecords (l : List (Chunk × ChunkEnv)) :
    ∀ (st : LoopState) (i : Nat),
      runLoop st i l =
        { cache := (runRecords st.cache i l).1,
          reports := st.reports ++ (runRecords st.cache i l).2.map toReport,
          policy_suggestions :=
            st.policy_suggestions ++ (runRecords st.cache i l).2.map toPolicy,
          chunk_populations :=
            st.chunk_populations ++ (runRecords st.cache i l).2.map toPopulation,
          chunk_livability :=
            st.chunk_livability ++ (runRecords st.cache i l).2.map toLivability } := by
  induction l with
  | nil => intro st i; simp [runLoop, runRecords]
  | cons p rest ih =>
    intro st i
    obtain ⟨ck, env⟩ := p
    simp only [runLoop, runRecords]
    by_cases h1 : (ck.size == 0 || !ck.hasCentroidX || !ck.hasCentroidY) = true
    · simp only [processChunk, h1, if_true]
      exact ih st (i + 1)
    · simp only [processChunk, h1, if_false, Bool.not_eq_true] at *
      simp only [h1, Bool.false_eq_true, if_false]
      cases hx : ck.centroidXMean with
      | none => simp only [processChunk, h1, hx]; exact ih st (i + 1)
      | some cx =>
        cases hy : ck.centroidYMean with
        | none => simp only [processChunk, h1, hx, hy]; exact ih st (i + 1)
        | some cy =>
          cases ht : env.transform with
          | none => simp only [processChunk, h1, hx, hy, ht]; exact ih st (i + 1)
          | some ll =>
            obtain ⟨lon, lat⟩ := ll
            simp only [processChunk, h1, hx, hy, ht]
            by_cases hp : (!ck.hasPopEst) = true
            · simp only [hp, if_true]
              exact ih { st with
                cache := (get_placename_from_coords st.cache lon lat env.net).cache }
                (i + 1)
            · simp only [hp, if_false]
              rw [ih]
              simp [List.append_assoc, toReport, toPolicy, toPopulation, toLivability]

lemma runRecords_length (l : List (Chunk × ChunkEnv)) :
    ∀ (c : GeoCache) (i : Nat),
      (runRecords c i l).2.length = l.countP (fun p => !skipsBatch p.1 p.2) := by
  induction l with
  | nil => intro c i; simp [runRecords]
  | cons p rest ih =>
    intro c i
    obtain ⟨ck, env⟩ := p
    simp only [runRecords, List.countP_cons]
    by_cases h1 : (ck.size == 0 || !ck.hasCentroidX || !ck.hasCentroidY) = true
    · have hs : skipsBatch ck env = true := by
        simp only [skipsBatch, Bool.or_eq_true] at h1 ⊢
        tauto
      simp [h1, ih c (i + 1), hs]
    · simp only [Bool.or_eq_true, not_or, Bool.not_eq_true] at h1
      obtain ⟨⟨ha, hb⟩, hc⟩ := h1
      simp only [ha, hb, hc, Bool.or_self, Bool.false_eq_true, if_false]
      cases hx : ck.centroidXMean with
      | none =>
        have hs : skipsBatch ck env = true := by
          simp [skipsBatch, hx]
        simp [ih c (i + 1), hs]
      | some cx =>
        cases hy : ck.centroidYMean with
        | none =>
          have hs : skipsBatch ck env = true := by
            simp [skipsBatch, hy]
          simp [ih c (i + 1), hs]
        | some cy =>
          cases ht : env.transform with
          | none =>
            have hs : skipsBatch ck env = true := by
              simp [skipsBatch, ht]
            simp [ih c (i + 1), hs]
          | some ll =>
            obtain ⟨lon, lat⟩ := ll
            by_cases hp : (!ck.hasPopEst) = true
            · have hs : skipsBatch ck env = true := by
                simp only [skipsBatch, Bool.or_eq_true]
                tauto
              simp [hp, ih _ (i + 1), hs]
            · have hs : skipsBatch ck env = false := by
                simp only [Bool.not_eq_true] at hp
                simp [skipsBatch, ha, hb, hc, hx, hy, ht, hp]
              simp [hp, ih _ (i + 1), hs]

/-- A batch whose observations trigger none of the skip conditions. -/
def goodChunk : Chunk :=
  { size := 10, hasCentroidX := true, hasCentroidY := true,
    centroidXMean := some 1757000, centroidYMean := some 5920000,
    hasPopEst := true, popMean := 25, popSum := 250, popMax := 90, popMin := 0 }

/-- The same batch with an undefined (NaN) centroid mean. -/
def badCentroidChunk : Chunk := { goodChunk with centroidXMean := none }

def goodEnv : ChunkEnv :=
  { transform := some (mkRat 174763 1000, mkRat (-36848) 1000), net := sampleNet,
    analysisText := "Analysis text.", policyText := "Policy text.",
    livabilityText := "85" }

/-- The spec's end-to-end scenario: three batches, the second with an
undefined centroid. -/
def threeBatchRun : List (Chunk × ChunkEnv) :=
  [(goodChunk, goodEnv), (badCentroidChunk, goodEnv), (goodChunk, goodEnv)]

/-- Claim C7: every per-batch skip condition (empty batch, missing centroid
column, undefined centroid mean, coordinate-transform failure, missing
population attribute) causes that batch to contribute no record, and
processing continues with the next batch: the number of emitted records is
the number of batches triggering no skip condition.  In the concrete 3-batch
scenario where batch 2 has an undefined centroid, the output holds exactly 2
records, for batches 1 and 3, and the run (a total function) completes
without a fatal error. -/
theorem C7_skips_are_local_and_nonfatal (l : List (Chunk × ChunkEnv)) :
    (runLoop initState 0 l).reports.length =
      l.countP (fun p => !skipsBatch p.1 p.2) ∧
    (runLoop initState 0 threeBatchRun).reports.map Prod.fst = [1, 3] ∧
    (runLoop initState 0 threeBatchRun).reports.length = 2 ∧
    (runLoop initState 0 threeBatchRun).policy_suggestions.length = 2 ∧
    (runLoop initState 0 threeBatchRun).chunk_populations.length = 2 ∧
    (runLoop initState 0 threeBatchRun).chunk_livability.length = 2 := by
  refine ⟨?_, by decide, by decide, by decide, by decide, by decide⟩
  rw [runLoop_eq_runRecords]
  simp [initState, runRecords_length]

/-- Claim C9: every batch that is not skipped contributes exactly one entry
to each of the four accumulators; the four accumulated lists are the images,
under four projections, of one per-batch record list appended after the
initial contents (so appended entries are never mutated), they all have the
same length — the number of non-skipped batches — and entries at the same
position are projections of the same per-batch record. -/
theorem C9_accumulators_one_to_one (st : LoopState) (i : Nat)
    (l : List (Chunk × ChunkEnv)) :
    (∃ recs : List ChunkRecord,
      (runLoop st i l).reports = st.reports ++ recs.map toReport ∧
      (runLoop st i l).policy_suggestions =
        st.policy_suggestions ++ recs.map toPolicy ∧
      (runLoop st i l).chunk_populations =
        st.chunk_populations ++ recs.map toPopulation ∧
      (runLoop st i l).chunk_livability =
        st.chunk_livability ++ recs.map toLivability ∧
      recs.length = l.countP (fun p => !skipsBatch p.1 p.2)) ∧
    ((runLoop initState 0 l).reports.length =
        (runLoop initState 0 l).policy_suggestions.length ∧
      (runLoop initState 0 l).policy_suggestions.length =
        (runLoop initState 0 l).chunk_populations.length ∧
      (runLoop initState 0 l).chunk_populations.length =
        (runLoop initState 0 l).chunk_livability.length) := by
  constructor
  · refine ⟨(runRecords st.cache i l).2, ?_, ?_, ?_, ?_, runRecords_length l st.cache i⟩
    · rw [runLoop_eq_runRecords]
    · rw [runLoop_eq_runRecords]
    · rw [runLoop_eq_runRecords]
    · rw [runLoop_eq_runRecords]
  · rw [runLoop_eq_runRecords]
    simp [initState]

end NZGrid
